import Mathlib

/-!
Verification of the intent-resolution and command-dispatch router of the
airflow chat front end (src/Chatbot2.jsx and src/Analytics.jsx).

Each source file contains two React components.  The logic relevant to the
claims lives in:
  * `Chatbot2.jsx`, first component  — `callMCPServer` (with JSON-parse
    fallback), `extractDags` (six shape checks), `normalizeDagList`,
    `sendMessage` (rerun rule, list rule, default forward to the model);
  * `Chatbot2.jsx`, second component — `sendToAI` (LLM interpreter) and the
    AI-driven `sendMessage`;
  * `Analytics.jsx`, second component — `callMCPServer` (no parse fallback),
    `extractDags` (four shape checks), `parseMCPResponse`, and the
    pattern-cascade `sendMessage`.

JavaScript values are modelled by the `JSON` inductive below (numbers as
integers; the payloads of interest carry no fractional numbers).  Property
access on a non-object yields `undefined` in JS; here it is `Option.none`.
Code points where the JS code would throw a `TypeError` (property access on
`null`, calling a method on a non-function) are modelled explicitly where
they are reachable, with the V8 error text used by `catch` blocks.
-/

inductive JSON where
  | null
  | bool (b : Bool)
  | num (n : Int)
  | str (s : String)
  | arr (xs : List JSON)
  | obj (fs : List (String × JSON))
deriving Repr

namespace JSON

/-- JS truthiness of a value: `null`, `false`, `0` and `""` are falsy;
every array and object is truthy. -/
def jsTruthy : JSON → Bool
  | .null => false
  | .bool b => b
  | .num n => n != 0
  | .str s => s != ""
  | .arr _ => true
  | .obj _ => true

/-- Property access `v.k`: `some` for an own field of an object, `none`
(JS `undefined`) otherwise.  The first binding of a key wins, as in a JS
object literal the earliest position of a key is kept. -/
def getProp : JSON → String → Option JSON
  | .obj fs, k => go fs k
  | _, _ => none
where
  go : List (String × JSON) → String → Option JSON
    | [], _ => none
    | (k', v) :: rest, k => if k' = k then some v else go rest k

/-- Property access collapsing `undefined` to `null` (both are falsy);
used where the code only tests truthiness or displays the value. -/
def jsGet (v : JSON) (k : String) : JSON := (v.getProp k).getD .null

/-- JS `v.length` : defined for arrays and strings, `undefined` otherwise.
(A literal `length` property on a plain object is not modelled; no payload
of interest carries one.) -/
def jsLen : JSON → Option Nat
  | .arr xs => some xs.length
  | .str s => some s.length
  | _ => none

/-- JS `v.length > 0` : comparison with `undefined` is `false` in JS. -/
def jsLenPos (v : JSON) : Bool := match v.jsLen with
  | some n => n > 0
  | none => false

end JSON

/-! ### JS string coercion (template literals, `String(v)`, `Array.prototype.toString`) -/

/-- Digit of a hex nibble. -/
def hexDigit (n : Nat) : Char :=
  if n < 10 then Char.ofNat (48 + n) else Char.ofNat (87 + n)

/-- Escape one character as in `JSON.stringify` string output. -/
def escChar (c : Char) : String :=
  if c = '"' then "\\\"" else
  if c = '\\' then "\\\\" else
  if c = '\n' then "\\n" else
  if c = '\r' then "\\r" else
  if c = '\t' then "\\t" else
  if c = Char.ofNat 8 then "\\b" else
  if c = Char.ofNat 12 then "\\f" else
  if c.toNat < 32 then
    "\\u00" ++ String.mk [hexDigit (c.toNat / 16), hexDigit (c.toNat % 16)]
  else String.singleton c

/-- Quote and escape a string as `JSON.stringify` does. -/
def escString (s : String) : String :=
  "\"" ++ String.join (s.data.map escChar) ++ "\""

mutual
/-- Compact `JSON.stringify(v)` ( form, no gap argument). -/
def stringifyJson : JSON → String
  | .null => "null"
  | .bool b => if b then "true" else "false"
  | .num n => toString n
  | .str s => escString s
  | .arr xs => "[" ++ stringifyList xs ++ "]"
  | .obj fs => "\x7b" ++ stringifyFields fs ++ "\x7d"

def stringifyList : List JSON → String
  | [] => ""
  | [x] => stringifyJson x
  | x :: y :: rest => stringifyJson x ++ "," ++ stringifyList (y :: rest)

def stringifyFields : List (String × JSON) → String
  | [] => ""
  | [(k, v)] => escString k ++ ":" ++ stringifyJson v
  | (k, v) :: f :: rest => escString k ++ ":" ++ stringifyJson v ++ "," ++ stringifyFields (f :: rest)
end

/-- Indentation of `n` levels at a gap of two spaces. -/
def indent2 (n : Nat) : String := String.mk (List.replicate (2 * n) ' ')

mutual
/-- Pretty-printed `JSON.stringify(v, null, 2)` — the pretty-printed form used by
`parseMCPResponse` as its final fallback. -/
def stringifyPretty : Nat → JSON → String
  | _, .null => "null"
  | _, .bool b => if b then "true" else "false"
  | _, .num n => toString n
  | _, .str s => escString s
  | _, .arr [] => "[]"
  | d, .arr (x :: xs) =>
      "[\n" ++ prettyList (d + 1) (x :: xs) ++ "\n" ++ indent2 d ++ "]"
  | _, .obj [] => "\x7b\x7d"
  | d, .obj (f :: fs) =>
      "\x7b\n" ++ prettyFields (d + 1) (f :: fs) ++ "\n" ++ indent2 d ++ "\x7d"

def prettyList : Nat → List JSON → String
  | _, [] => ""
  | d, [x] => indent2 d ++ stringifyPretty d x
  | d, x :: y :: rest => indent2 d ++ stringifyPretty d x ++ ",\n" ++ prettyList d (y :: rest)

def prettyFields : Nat → List (String × JSON) → String
  | _, [] => ""
  | d, [(k, v)] => indent2 d ++ escString k ++ ": " ++ stringifyPretty d v
  | d, (k, v) :: f :: rest =>
      indent2 d ++ escString k ++ ": " ++ stringifyPretty d v ++ ",\n" ++ prettyFields d (f :: rest)
end

mutual
/-- JS string coercion `String(v)` / template-literal interpolation:
`null` prints "null", arrays join their elements with "," (with `null`
elements becoming empty), plain objects print "[object Object]". -/
def disp : JSON → String
  | .null => "null"
  | .bool b => if b then "true" else "false"
  | .num n => toString n
  | .str s => s
  | .arr xs => dispJoin xs
  | .obj _ => "[object Object]"

/-- JS `Array.prototype.join(",")` as used by array-to-string coercion:
`null` elements contribute the empty string. -/
def dispJoin : List JSON → String
  | [] => ""
  | [x] => dispElem x
  | x :: y :: rest => dispElem x ++ "," ++ dispJoin (y :: rest)

def dispElem : JSON → String
  | .null => ""
  | v => disp v
end

/-! ### Character classes and string primitives of the JS code -/

/-- Regex `\w` / word character for `\b` boundaries: `[A-Za-z0-9_]`. -/
def isWordChar (c : Char) : Bool := c.isAlphanum || c = '_'

/-- JS `\s` (also the set removed by `String.prototype.trim`). -/
def isJsSpace (c : Char) : Bool :=
  c = ' ' || c = '\t' || c = '\n' || c = '\r' || c.toNat = 0x0b || c.toNat = 0x0c ||
  c.toNat = 0xa0 || c.toNat = 0x1680 || (0x2000 ≤ c.toNat && c.toNat ≤ 0x200a) ||
  c.toNat = 0x2028 || c.toNat = 0x2029 || c.toNat = 0x202f || c.toNat = 0x205f ||
  c.toNat = 0x3000 || c.toNat = 0xfeff

/-- Line terminators, which the regex `.` (no `s` flag) does not match. -/
def isNewlineCh (c : Char) : Bool :=
  c = '\n' || c = '\r' || c.toNat = 0x2028 || c.toNat = 0x2029

/-- The identifier character class `[a-zA-Z0-9_\-:.]` of the capture groups. -/
def isIdChar (c : Char) : Bool :=
  c.isAlphanum || c = '_' || c = '-' || c = ':' || c = '.'

/-- The optional-quote class `['""]` around captured identifiers
(apostrophe and double quote; the class lists `"` twice in the source). -/
def isQuoteCh (c : Char) : Bool := c = '\'' || c = '"'

/-- JS `String.prototype.toLowerCase` (ASCII case fold suffices here). -/
def lowerChars (s : List Char) : List Char := s.map Char.toLower

/-- JS `String.prototype.trim`. -/
def jsTrim (s : String) : String :=
  String.mk (((s.data.dropWhile isJsSpace).reverse.dropWhile isJsSpace).reverse)

/-- JS `content.split("\n")[0]` : the first line of a string. -/
def firstLine (s : String) : String := String.mk (s.data.takeWhile (fun c => c ≠ '\n'))

/-- JS `cmd.split(/\s+/).slice(-1)[0]` : the substring after the last
whitespace character (empty when the string ends in whitespace). -/
def lastTokenJS (s : String) : String :=
  String.mk ((s.data.reverse.takeWhile (fun c => !isJsSpace c)).reverse)

/-! ### A small model of the JS regex constructs used by the matcher

The patterns in the code use only: case-insensitive literals, alternation,
`\b`, `\s+`, greedy `.*`, lazy `.*?`, an optional quote, and a greedy
one-or-more capture over the identifier class.  `String.prototype.match`
without the `g` flag finds the leftmost position at which the whole pattern
matches, backtracking greedily/lazily inside; the combinators below
reproduce exactly that search order for these patterns. -/

/-- Case-insensitive literal: consume `pat` (given lower-case) from the
front of `s`, returning the rest. -/
def stripCI : List Char → List Char → Option (List Char)
  | [], s => some s
  | _ :: _, [] => none
  | p :: ps, c :: cs => if c.toLower = p then stripCI ps cs else none

/-- Leftmost-match driver: try the pattern at every position from the left,
threading whether the previous character is a word character (for `\b`). -/
def scanB (f : Bool → List Char → Option α) : Bool → List Char → Option α
  | prev, [] => f prev []
  | prev, c :: cs => f prev (c :: cs) <|> scanB f (isWordChar c) cs

/-- Lazy gap `.*?` : try the continuation at the shortest gap first; the gap
cannot absorb a line terminator. -/
def lazyGapTo (g : List Char → Option α) : List Char → Option α
  | [] => g []
  | c :: cs => g (c :: cs) <|> (if isNewlineCh c then none else lazyGapTo g cs)

/-- Greedy gap `.*` : try the continuation at the longest gap first. -/
def greedyGapTo (g : List Char → Option α) : List Char → Option α
  | [] => g []
  | c :: cs => (if isNewlineCh c then none else greedyGapTo g cs) <|> g (c :: cs)

/-- Ordered alternation `(?:p₁|p₂|…)` followed by a continuation: each
alternative is tried in order together with the rest of the pattern. -/
def altStrip (pats : List String) (s : List Char) (k : List Char → Option α) : Option α :=
  match pats with
  | [] => none
  | p :: ps => (match stripCI p.data s with
      | some r => k r
      | none => none) <|> altStrip ps s k

/-- Pattern `\s+['""]?([a-zA-Z0-9_\-:.]+)` : greedy whitespace (at least one), an
optional quote, then the greedy nonempty identifier capture.  Quotes and
whitespace are not identifier characters, so the regex backtracking over
`\s+` and the optional quote cannot rescue a failed capture: if no
identifier character follows, the position fails, exactly as here. -/
def tailCap (s : List Char) : Option (List Char) :=
  match s with
  | c :: cs =>
    if isJsSpace c then
      let r := cs.dropWhile isJsSpace
      let r' := match r with
        | d :: ds => if isQuoteCh d then ds else d :: ds
        | [] => []
      let cap := r'.takeWhile isIdChar
      if cap.isEmpty then none else some cap
    else none
  | [] => none

/-- Pattern `\s+` (greedy, at least one) without a capture, returning the rest. -/
def spaces1 : List Char → Option (List Char)
  | c :: cs => if isJsSpace c then some (cs.dropWhile isJsSpace) else none
  | [] => none

/-! ### The pattern rules of the two chatbots -/

/-- From `Chatbot2.jsx` (first component): `query.toLowerCase().match(/\brerun\s+([a-zA-Z0-9_\-:.]+)/)`.
The argument is already lower-cased by the caller; the pattern has no
optional quotes. -/
def rerunCapture (s : List Char) : Option String :=
  scanB (fun prev t =>
    if prev then none else
    (stripCI "rerun".data t).bind (fun r =>
      (spaces1 r).bind (fun r2 =>
        let cap := r2.takeWhile isIdChar
        if cap.isEmpty then none else some (String.mk cap))))
    false s

/-- Word-bounded token test used by the list rules: one of `pats` matches
here with a word boundary after it. -/
def wordTokAt (pats : List String) (s : List Char) : Bool :=
  pats.any (fun p => match stripCI p.data s with
    | some [] => true
    | some (c :: _) => !isWordChar c
    | none => false)

/-- After the first token of `\b(list|show|get)\b.*\b(all|dags?)\b`: a
non-newline gap, then `all`, `dags` or `dag` as a whole word. -/
def listTok2From : Bool → List Char → Bool
  | _, [] => false
  | prev, c :: cs =>
    (!prev && wordTokAt ["all", "dags", "dag"] (c :: cs)) ||
    (!isNewlineCh c && listTok2From (isWordChar c) cs)

/-- From `Analytics.jsx`: `/\b(list|show|get)\b.*\b(all|dags?)\b/i.test(query)`. -/
def listTestA (s : List Char) : Bool := go false s
where
  go : Bool → List Char → Bool
    | _, [] => false
    | prev, c :: cs =>
      (!prev && ["list", "show", "get"].any (fun p =>
        match stripCI p.data (c :: cs) with
        | some (d :: ds) => !isWordChar d && listTok2From true (d :: ds)
        | some [] => false
        | none => false)) ||
      go (isWordChar c) cs

/-- Gap then `\bdag` (no trailing boundary) for the Chatbot2 list rule. -/
def dagTokFrom : Bool → List Char → Bool
  | _, [] => false
  | prev, c :: cs =>
    (!prev && (stripCI "dag".data (c :: cs)).isSome) ||
    (!isNewlineCh c && dagTokFrom (isWordChar c) cs)

/-- Case-insensitive substring test (`/show all dags/i.test(query)`). -/
def containsCI (pat : String) (s : List Char) : Bool :=
  match s with
  | [] => (stripCI pat.data []).isSome
  | c :: cs => (stripCI pat.data (c :: cs)).isSome || containsCI pat cs

/-- From `Chatbot2.jsx` (first component):
`/\blist\b.*\bdag/i.test(query) || /show all dags/i.test(query)`. -/
def listTestC (s : List Char) : Bool := go false s || containsCI "show all dags" s
where
  go : Bool → List Char → Bool
    | _, [] => false
    | prev, c :: cs =>
      (!prev && (match stripCI "list".data (c :: cs) with
        | some (d :: ds) => !isWordChar d && dagTokFrom true (d :: ds)
        | some [] => false
        | none => false)) ||
      go (isWordChar c) cs

/-- Test `/\bsearch\b/i.test(query)`. -/
def searchWordTest (s : List Char) : Bool := go false s
where
  go : Bool → List Char → Bool
    | _, [] => false
    | prev, c :: cs =>
      (!prev && wordTokAt ["search"] (c :: cs)) || go (isWordChar c) cs

/-- From `Analytics.jsx`: `query.match(/search.*(?:for|dags?)\s+['""]?([a-zA-Z0-9_\-:.]+)['""]?/i)`,
returning the capture.  `.*` is greedy, so for a given occurrence of
`search` the rightmost viable `for`/`dags`/`dag` is used. -/
def searchCaptureA (s : List Char) : Option String :=
  scanB (fun _ t =>
    (stripCI "search".data t).bind
      (greedyGapTo (fun u => altStrip ["for", "dags", "dag"] u tailCap)))
    false s |>.map String.mk

/-- From `Analytics.jsx`: `query.match(/(?:details?|info|status).*?(?:for|of|on)\s+['""]?([a-zA-Z0-9_\-:.]+)['""]?/i)`.
`details?` puts `details` before `detail` (greedy `s?`); the gap is lazy. -/
def detailsCapture (s : List Char) : Option String :=
  scanB (fun _ t =>
    altStrip ["details", "detail", "info", "status"] t
      (lazyGapTo (fun u => altStrip ["for", "of", "on"] u tailCap)))
    false s |>.map String.mk

/-- From `Analytics.jsx`: `query.match(/pause\s+['""]?([a-zA-Z0-9_\-:.]+)['""]?/i)`
(no word boundary: it also fires inside "unpause"). -/
def pauseCapture (s : List Char) : Option String :=
  scanB (fun _ t => (stripCI "pause".data t).bind tailCap) false s |>.map String.mk

/-- From `Analytics.jsx`: `query.match(/(?:unpause|resume|activate)\s+['""]?([a-zA-Z0-9_\-:.]+)['""]?/i)`. -/
def unpauseCapture (s : List Char) : Option String :=
  scanB (fun _ t => altStrip ["unpause", "resume", "activate"] t tailCap) false s |>.map String.mk

/-- From `Analytics.jsx`: `query.match(/(?:trigger|run|start)\s+['""]?([a-zA-Z0-9_\-:.]+)['""]?/i)`
(no word boundary: "rerun x" fires via the substring "run x"). -/
def triggerCapture (s : List Char) : Option String :=
  scanB (fun _ t => altStrip ["trigger", "run", "start"] t tailCap) false s |>.map String.mk

/-- From `Analytics.jsx`: `query.match(/(?:latest|last|recent)\s+run.*?(?:for|of)\s+['""]?([a-zA-Z0-9_\-:.]+)['""]?/i)`. -/
def latestRunCapture (s : List Char) : Option String :=
  scanB (fun _ t =>
    altStrip ["latest", "last", "recent"] t (fun r =>
      (spaces1 r).bind (fun r2 =>
        (stripCI "run".data r2).bind
          (lazyGapTo (fun u => altStrip ["for", "of"] u tailCap)))))
    false s |>.map String.mk

/-! ### Response normalization (`extractDags`, `normalizeDagList`, `parseMCPResponse`) -/

/-- JS `Array.isArray` view: the element list when the value is an array. -/
def isArrA : JSON → Option (List JSON)
  | .arr xs => some xs
  | _ => none

/-- JS `Array.isArray`. -/
def isArr (v : JSON) : Bool := (isArrA v).isSome

/-- JS `a || b` on values (first operand if truthy, else the second). -/
def jsOr (a b : JSON) : JSON := if a.jsTruthy then a else b

/-- Model of `extractDags` of the first `Chatbot2.jsx` component (lines 103–120):
six shape checks in order, each returning at the first structural match.
Every return point is an array, so the result is a list. -/
def extractDagsC (b : JSON) : List JSON :=
  if !b.jsTruthy then []          -- `if (!mcpBody) return [];`
  else
    -- 1) `if (mcpBody.output && Array.isArray(mcpBody.output.dags)) return mcpBody.output.dags;`
    match (if (b.jsGet "output").jsTruthy
           then isArrA ((b.jsGet "output").jsGet "dags") else none) with
    | some xs => xs
    | none =>
      -- 2) `if (Array.isArray(mcpBody.dags)) return mcpBody.dags;`
      match isArrA (b.jsGet "dags") with
      | some xs => xs
      | none =>
        -- `if (mcpBody.data) { ... }` : dags inside data, or data itself an array;
        -- a truthy data matching neither falls through to the checks below
        match (if (b.jsGet "data").jsTruthy then
                 match isArrA ((b.jsGet "data").jsGet "dags") with
                 | some xs => some xs
                 | none => isArrA (b.jsGet "data")
               else none) with
        | some xs => xs
        | none =>
          -- 3) `if (Array.isArray(mcpBody.results)) return mcpBody.results;`
          match isArrA (b.jsGet "results") with
          | some xs => xs
          | none =>
            -- 4) `if (Array.isArray(mcpBody)) return mcpBody;`  5) `return [];`
            match isArrA b with
            | some xs => xs
            | none => []

/-- Model of `extractDags` of `Analytics.jsx` (lines 442–449; the second `Chatbot2.jsx`
component, lines 542–549, is textually identical).  The first check
`if (mcpBody.output?.dags) return mcpBody.output.dags;` tests truthiness
only, so a non-array (even an object or nonempty string) is returned as is:
the result need not be a sequence. -/
def extractDagsAJ (b : JSON) : JSON :=
  if !b.jsTruthy then .arr []
  else if ((b.jsGet "output").jsGet "dags").jsTruthy then (b.jsGet "output").jsGet "dags"
  else if isArr (b.jsGet "dags") then b.jsGet "dags"
  else if isArr (b.jsGet "results") then b.jsGet "results"
  else if isArr b then b
  else .arr []

/-- One entry of `normalizeDagList` (`Chatbot2.jsx` lines 124–128):
falsy entries become `""`, strings pass through, anything else yields
`d.dag_id || d.dagId || d.id || JSON.stringify(d)`. -/
def normEntry (d : JSON) : JSON :=
  if !d.jsTruthy then .str ""
  else match d with
    | .str s => .str s
    | _ => jsOr (d.jsGet "dag_id") (jsOr (d.jsGet "dagId")
             (jsOr (d.jsGet "id") (.str (stringifyJson d))))

/-- Model of `normalizeDagList` (`Chatbot2.jsx` lines 123–129): map then
`.filter(Boolean)`, which removes every falsy normalized entry. -/
def normalizeDagList (raw : List JSON) : List JSON :=
  (raw.map normEntry).filter JSON.jsTruthy

/-- The `if (body.output) { ... }` block shared by both versions of
`parseMCPResponse`: a string output, an output message, or a state/status
line; `none` when the block falls through. -/
def parseOutputPart (out : JSON) : Option JSON :=
  match out with
  | .str s => some (.str s)
  | _ =>
    if (out.jsGet "message").jsTruthy then some (out.jsGet "message")
    else if (out.jsGet "state").jsTruthy || (out.jsGet "status").jsTruthy then
      some (.str ("Status: " ++ disp (jsOr (out.jsGet "state") (out.jsGet "status"))))
    else none

/-- Model of `parseMCPResponse` of `Analytics.jsx` (lines 452–478).  It has no null
guard: on a `null` body the very first read `body.success` throws a
`TypeError`, modelled as `none` (the caller's `catch` then reports it). -/
def parseMCPResponseA (body : JSON) : Option JSON :=
  match body with
  | .null => none
  | _ => some (
      if (body.jsGet "success").jsTruthy && (body.jsGet "message").jsTruthy then
        body.jsGet "message"
      else if (body.jsGet "error").jsTruthy then
        .str ("❌ Error: " ++ disp (body.jsGet "error"))
      else
        match (if (body.jsGet "output").jsTruthy
               then parseOutputPart (body.jsGet "output") else none) with
        | some v => v
        | none => .str (stringifyPretty 0 body))

/-- Model of `parseMCPResponse` of the second `Chatbot2.jsx` component (lines
552–587): same shape checks but with a falsy-body guard, then top-level
`message`, a pretty-printed `data` block, and the pretty-printed body. -/
def parseMCPResponseB (body : JSON) : JSON :=
  if !body.jsTruthy then .str "No response body."
  else if (body.jsGet "success").jsTruthy && (body.jsGet "message").jsTruthy then
    body.jsGet "message"
  else if (body.jsGet "error").jsTruthy then
    .str ("❌ Error: " ++ disp (body.jsGet "error"))
  else
    match (if (body.jsGet "output").jsTruthy
           then parseOutputPart (body.jsGet "output") else none) with
    | some v => v
    | none =>
      if (body.jsGet "message").jsTruthy then body.jsGet "message"
      else if (body.jsGet "data").jsTruthy then .str (stringifyPretty 0 (body.jsGet "data"))
      else .str (stringifyPretty 0 body)

/-! ### Object assignment and spread -/

/-- JS property assignment into a field list: an existing key keeps its
position and gets the new value; a new key is appended. -/
def objInsert (fs : List (String × JSON)) (k : String) (v : JSON) : List (String × JSON) :=
  if fs.any (fun p => p.1 = k) then fs.map (fun p => if p.1 = k then (k, v) else p)
  else fs ++ [(k, v)]

/-- Object spread `{ ...base, ...v }` restricted to the uses in the code:
spreading an object copies its fields in order; spreading an array or a
string copies index keys; spreading `null` or another primitive adds
nothing. -/
def spreadInto (base : List (String × JSON)) (v : JSON) : List (String × JSON) :=
  match v with
  | .obj fs => fs.foldl (fun acc kv => objInsert acc kv.1 kv.2) base
  | .arr xs => (xs.enum.map (fun p => (toString p.1, p.2))).foldl
      (fun acc kv => objInsert acc kv.1 kv.2) base
  | .str s => (s.data.enum.map (fun p => (toString p.1, String.singleton p.2))).foldl
      (fun acc kv => objInsert acc kv.1 (.str kv.2)) base
  | _ => base

/-- Assignment `details.latest_run = runRes.body` : assignment on the details object. -/
def objSet (v : JSON) (k : String) (x : JSON) : JSON :=
  match v with
  | .obj fs => .obj (objInsert fs k x)
  | other => other

/-! ### The backend gateway (`callMCPServer`) -/

/-- The observable outcome of one `fetch` of the MCP endpoint: either the
promise rejects (network failure), or a response arrives with `ok`,
`status`, and the result of `res.json()` (`none` when the body is not
valid JSON). -/
inductive FetchOutcome where
  | networkError (msg : String)
  | response (ok : Bool) (status : Nat) (parse : Option JSON)
deriving Repr

/-- The record `callMCPServer` resolves to. -/
structure MCPResult where
  ok : Bool
  status : Nat
  body : JSON
deriving Repr

/-- Model of `callMCPServer` of the first `Chatbot2.jsx` component (lines 58–71):
`await res.json().catch(() => ({}))` degrades a JSON parse failure to the
empty object; only a network failure takes the catch branch
(`{ ok:false, status:0, body:null }`). -/
def callMCPServerC : FetchOutcome → MCPResult
  | .networkError _ => { ok := false, status := 0, body := .null }
  | .response ok st parse => { ok := ok, status := st, body := parse.getD (.obj []) }

/-- Model of `callMCPServer` of `Analytics.jsx` (lines 426–439; the second
`Chatbot2.jsx` component, lines 526–539, is identical): `await res.json()`
has no parse fallback, so a parse failure rejects into the outer catch and
yields `{ ok:false, status:0, body:null }` even when the HTTP response was
a 2xx. -/
def callMCPServerA : FetchOutcome → MCPResult
  | .networkError _ => { ok := false, status := 0, body := .null }
  | .response ok st (some d) => { ok := ok, status := st, body := d }
  | .response _ _ none => { ok := false, status := 0, body := .null }

/-- JS `String.prototype.startsWith` (and Lean's `String.startsWith`),
computed on the character lists so that closed instances reduce. -/
def jsStartsWith (s pre : String) : Bool := pre.data.isPrefixOf s.data

/-! ### The per-turn model of `sendMessage`

A turn is modelled as a pure function of the user input and of the outcomes
of the external calls it makes: an oracle `o : String → MCPResult` giving
the result of `callMCPServer` for each query string, plus (where used) the
outcome of the rerun-endpoint fetch and the language-model reply.  The
`Turn` records collect the observable effects: the appended user message,
the backend calls issued in order, the appended bot messages (as their
rendered display strings), and the `setDagList` / `setDagDetails` /
`setLoading` updates.  Each dispatch branch is one record literal whose
varying fields are computed by an outcome helper that mirrors the branch's
conditionals. -/

inductive BranchA where
  | noop | list | search | details | pause | unpause | trigger | latestRun | dflt
deriving Repr, DecidableEq

structure TurnA where
  userMsg : Option String := none
  branch : BranchA := .noop
  calls : List String := []
  botMsgs : List String := []
  dagList : Option JSON := none
  dagDetails : Option JSON := none
  loadingTouched : Bool := false
deriving Repr

/-- V8 text of the `TypeError` thrown by `parseMCPResponse(null)`. -/
def errNullSuccess : String := "❌ Error: Cannot read properties of null (reading 'success')"

/-- Expression `run.state?.toUpperCase() || 'UNKNOWN'` : `undefined`/`null` short-circuit
to `'UNKNOWN'`; a string is upper-cased (an empty result falls back to
`'UNKNOWN'`); any other value has no `toUpperCase` method and throws. -/
def stateUpperDisp : Option JSON → Option String
  | none => some "UNKNOWN"
  | some .null => some "UNKNOWN"
  | some (.str s) => some (if s = "" then "UNKNOWN" else String.mk (s.data.map Char.toUpper))
  | some _ => none

/-- Messages and `setDagList` value of the LIST ALL DAGS branch of
`Analytics.jsx` (lines 493–519).  When `extractDags` returns a non-array
with positive `.length` (a nonempty string), `setDagList` has already run
before `dags.filter` throws; an array containing `null` throws inside the
filter callback (`d.is_paused`). -/
def listOutcomeA (result : MCPResult) : List String × Option JSON :=
  if result.ok && result.body.jsTruthy then
    let dags := extractDagsAJ result.body
    if dags.jsLenPos then
      match dags with
      | .arr l =>
        if l.any (fun d => match d with | .null => true | _ => false) then
          (["❌ Error: Cannot read properties of null (reading 'is_paused')"], some (.arr l))
        else
          let activeCount := (l.filter (fun d => !(d.jsGet "is_paused").jsTruthy)).length
          let pausedCount := (l.filter (fun d => (d.jsGet "is_paused").jsTruthy)).length
          (["📊 Found **" ++ toString l.length ++ " DAGs**\n\n✅ Active: " ++
            toString activeCount ++ "\n⏸️ Paused: " ++ toString pausedCount ++
            "\n\nShowing in table below."], some (.arr l))
      | other => (["❌ Error: dags.filter is not a function"], some other)
    else (["No DAGs found."], none)
  else (["❌ Could not connect to Airflow server."], none)

/-- The LIST ALL DAGS branch as a turn. -/
def listBranchA (input : String) (o : String → MCPResult) : TurnA :=
  { userMsg := some input, branch := .list, calls := ["list all dags"],
    botMsgs := (listOutcomeA (o "list all dags")).1,
    dagList := (listOutcomeA (o "list all dags")).2,
    dagDetails := some .null, loadingTouched := true }

/-- Prefix of `s` before the next case-insensitive occurrence of `pat`
(all of `s` when there is none). -/
def takeUntilCI (pat : String) : List Char → List Char
  | [] => []
  | c :: cs => if (stripCI pat.data (c :: cs)).isSome then [] else c :: takeUntilCI pat cs

/-- Rest of `s` after the first case-insensitive occurrence of `pat`. -/
def afterFirstCI (pat : String) : List Char → Option (List Char)
  | [] => none
  | c :: cs =>
    match stripCI pat.data (c :: cs) with
    | some r => some r
    | none => afterFirstCI pat cs

/-- JS `query.split(/search/i)[1]` : the segment between the first occurrence
of `search` and the following one (`none` when `search` does not occur). -/
def splitSearchSecond (s : List Char) : Option (List Char) :=
  (afterFirstCI "search" s).map (takeUntilCI "search")

/-- Trim on character lists. -/
def jsTrimL (l : List Char) : List Char :=
  ((l.dropWhile isJsSpace).reverse.dropWhile isJsSpace).reverse

/-- Expression `searchMatch?.[1] || query.split(/search/i)[1]?.trim()` : the search
term, `none` when it is absent or empty (falsy). -/
def searchTermA (query : String) : Option String :=
  match searchCaptureA query.data with
  | some cap => some cap          -- the capture is nonempty, hence truthy
  | none =>
    match (splitSearchSecond query.data).map (fun l => String.mk (jsTrimL l)) with
    | some t => if t = "" then none else some t
    | none => none

/-- Calls, messages and `setDagList` value of the SEARCH DAGS branch of
`Analytics.jsx` (lines 521–544).  An absent or empty term skips everything
inside the branch, and a failed backend call produces no message at all
(the `if (result.ok)` has no `else`). -/
def searchOutcomeA (query : String) (o : String → MCPResult) :
    List String × List String × Option JSON :=
  match searchTermA query with
  | some term =>
    let result := o ("search dags " ++ term)
    (["search dags " ++ term],
     if result.ok then
       let dags := extractDagsAJ result.body
       if dags.jsLenPos then
         (["🔍 Found " ++ toString (dags.jsLen.getD 0) ++ " DAG(s) matching \"" ++ term ++ "\""],
          some dags)
       else (["No DAGs found matching \"" ++ term ++ "\""], none)
     else ([], none))
  | none => ([], [], none)

/-- The SEARCH DAGS branch as a turn. -/
def searchBranchA (input query : String) (o : String → MCPResult) : TurnA :=
  { userMsg := some input, branch := .search,
    calls := (searchOutcomeA query o).1,
    botMsgs := (searchOutcomeA query o).2.1,
    dagList := (searchOutcomeA query o).2.2,
    dagDetails := some .null, loadingTouched := true }

/-- Messages and detail record of the GET DAG DETAILS branch of
`Analytics.jsx` (lines 546–579): `Promise.all` issues the detail call and
the latest-run call together and awaits both; a failed detail call reports
"not found" and leaves the detail record `null`; a failed run call merely
skips the `latest_run` assignment. -/
def detailsOutcomeA (dagId : String) (detailsRes runRes : MCPResult) :
    List String × JSON :=
  if detailsRes.ok then
    let details : JSON := .obj (spreadInto [("dag_id", .str dagId)] detailsRes.body)
    let details := if runRes.ok then objSet details "latest_run" runRes.body else details
    (["📋 Details for `" ++ dagId ++ "` shown below."], details)
  else
    (["❌ DAG `" ++ dagId ++ "` not found."], .null)

/-- The GET DAG DETAILS branch as a turn. -/
def detailsBranchA (input dagId : String) (o : String → MCPResult) : TurnA :=
  { userMsg := some input, branch := .details,
    calls := ["get dag details " ++ dagId, "get latest run " ++ dagId],
    botMsgs := (detailsOutcomeA dagId (o ("get dag details " ++ dagId))
      (o ("get latest run " ++ dagId))).1,
    dagDetails := some (detailsOutcomeA dagId (o ("get dag details " ++ dagId))
      (o ("get latest run " ++ dagId))).2,
    loadingTouched := true }

/-- Message of the PAUSE DAG branch of `Analytics.jsx` (lines 581–599). -/
def pauseMsgA (dagId : String) (result : MCPResult) : String :=
  if result.ok then
    match parseMCPResponseA result.body with
    | some rt => "⏸️ Pause request sent for `" ++ dagId ++ "`\n\nServer response:\n" ++ disp rt
    | none => errNullSuccess
  else "❌ Failed to pause `" ++ dagId ++ "`. Server returned: " ++ toString result.status

/-- The PAUSE DAG branch as a turn. -/
def pauseBranchA (input dagId : String) (o : String → MCPResult) : TurnA :=
  { userMsg := some input, branch := .pause, calls := ["pause dag " ++ dagId],
    botMsgs := [pauseMsgA dagId (o ("pause dag " ++ dagId))],
    dagDetails := some .null, loadingTouched := true }

/-- Message of the UNPAUSE DAG branch of `Analytics.jsx` (lines 601–619). -/
def unpauseMsgA (dagId : String) (result : MCPResult) : String :=
  if result.ok then
    match parseMCPResponseA result.body with
    | some rt => "▶️ Unpause request sent for `" ++ dagId ++ "`\n\nServer response:\n" ++ disp rt
    | none => errNullSuccess
  else "❌ Failed to unpause `" ++ dagId ++ "`. Server returned: " ++ toString result.status

/-- The UNPAUSE DAG branch as a turn. -/
def unpauseBranchA (input dagId : String) (o : String → MCPResult) : TurnA :=
  { userMsg := some input, branch := .unpause, calls := ["unpause dag " ++ dagId],
    botMsgs := [unpauseMsgA dagId (o ("unpause dag " ++ dagId))],
    dagDetails := some .null, loadingTouched := true }

/-- Message of the TRIGGER DAG branch of `Analytics.jsx` (lines 621–648). -/
def triggerMsgA (dagId : String) (result : MCPResult) : String :=
  if result.ok then
    match parseMCPResponseA result.body with
    | some rt =>
      let runId := jsOr (result.body.jsGet "dag_run_id")
        (jsOr ((result.body.jsGet "output").jsGet "dag_run_id")
          ((result.body.jsGet "data").jsGet "dag_run_id"))
      if runId.jsTruthy then
        "🚀 Triggered `" ++ dagId ++ "`\n\nRun ID: `" ++ disp runId ++
          "`\n\nServer response:\n" ++ disp rt
      else
        "🚀 Trigger request sent for `" ++ dagId ++ "`\n\nServer response:\n" ++ disp rt
    | none => errNullSuccess
  else "❌ Failed to trigger `" ++ dagId ++ "`. Server returned: " ++ toString result.status

/-- The TRIGGER DAG branch as a turn. -/
def triggerBranchA (input dagId : String) (o : String → MCPResult) : TurnA :=
  { userMsg := some input, branch := .trigger, calls := ["trigger dag " ++ dagId],
    botMsgs := [triggerMsgA dagId (o ("trigger dag " ++ dagId))],
    dagDetails := some .null, loadingTouched := true }

/-- Message of the LATEST RUN STATUS branch of `Analytics.jsx`
(lines 650–680). -/
def latestRunMsgA (dagId : String) (result : MCPResult) : String :=
  if result.ok && result.body.jsTruthy then
    match parseMCPResponseA result.body with
    | some rt =>
      let run := jsOr (result.body.jsGet "output") result.body
      if (run.jsGet "state").jsTruthy || (run.jsGet "dag_run_id").jsTruthy then
        match stateUpperDisp (run.getProp "state") with
        | some st =>
          "🔄 Latest run for `" ++ dagId ++ "`:\n\nState: **" ++ st ++
            "**\nStarted: " ++ disp (jsOr (run.jsGet "start_date") (.str "N/A")) ++
            "\nRun ID: `" ++ disp (jsOr (run.jsGet "dag_run_id") (.str "N/A")) ++ "`"
        | none => "❌ Error: run.state?.toUpperCase is not a function"
      else "🔄 Latest run info for `" ++ dagId ++ "`:\n\n" ++ disp rt
    | none => errNullSuccess    -- unreachable: the body is truthy, hence not null
  else "No runs found for `" ++ dagId ++ "`"

/-- The LATEST RUN STATUS branch as a turn. -/
def latestRunBranchA (input dagId : String) (o : String → MCPResult) : TurnA :=
  { userMsg := some input, branch := .latestRun, calls := ["get latest run " ++ dagId],
    botMsgs := [latestRunMsgA dagId (o ("get latest run " ++ dagId))],
    dagDetails := some .null, loadingTouched := true }

/-- Message of the DEFAULT branch of `Analytics.jsx` (lines 682–697). -/
def defaultMsgA (query : String) (result : MCPResult) : String :=
  if result.ok then
    match parseMCPResponseA result.body with
    | some rt => if rt.jsTruthy then disp rt else "Request completed but no response data."
    | none => errNullSuccess
  else
    "❌ Server error (" ++ toString result.status ++
      "). Make sure the MCP server is running on port 8800.\n\nQuery: \"" ++ query ++ "\""

/-- The DEFAULT branch as a turn. -/
def defaultBranchA (input query : String) (o : String → MCPResult) : TurnA :=
  { userMsg := some input, branch := .dflt, calls := [query],
    botMsgs := [defaultMsgA query (o query)],
    dagDetails := some .null, loadingTouched := true }

/-- Model of `sendMessage` of `Analytics.jsx` (lines 481–705): the early return on a
blank input, then the fixed rule cascade, first match wins. -/
def sendMessageA (input : String) (o : String → MCPResult) : TurnA :=
  if jsTrim input = "" then {}
  else
    let query := jsTrim input
    if listTestA query.data then listBranchA input o
    else if (searchCaptureA query.data).isSome || searchWordTest query.data then
      searchBranchA input query o
    else match detailsCapture query.data with
    | some dagId => detailsBranchA input dagId o
    | none => match pauseCapture query.data with
      | some dagId => pauseBranchA input dagId o
      | none => match unpauseCapture query.data with
        | some dagId => unpauseBranchA input dagId o
        | none => match triggerCapture query.data with
          | some dagId => triggerBranchA input dagId o
          | none => match latestRunCapture query.data with
            | some dagId => latestRunBranchA input dagId o
            | none => defaultBranchA input query o

/-! ### `sendMessage` of the first `Chatbot2.jsx` component (lines 132–225) -/

inductive BranchC where
  | noop | rerun | list | dflt
deriving Repr, DecidableEq

structure TurnC where
  userMsg : Option String := none
  branch : BranchC := .noop
  rerunCalls : List String := []     -- dag_ids POSTed to /tool/rerun_dag
  calls : List String := []          -- queries POSTed to /run
  botMsgs : List String := []
  dagList : Option (List JSON) := none
  loadingTouched : Bool := false
deriving Repr

/-- Message of the RERUN branch (lines 142–186): a direct POST of
`{dag_id}` to the fixed rerun endpoint, with `res.json().catch(() => ({}))`.
On success the run id is `body.data?.dag_run_id || body.data?.run_id ||
body.data?.dagRunId || body.data?.dag_run?.dag_run_id`, defaulting to
"manual". -/
def rerunMsgC (dagId : String) (rr : FetchOutcome) : String :=
  match rr with
  | .networkError m =>
    "Error: Could not reach MCP server. Is it running on port 8800? (" ++ m ++ ")"
  | .response ok st parse =>
    let body := parse.getD (.obj [])
    if ok && (body.jsGet "success").jsTruthy then
      let runId := jsOr ((body.jsGet "data").jsGet "dag_run_id")
        (jsOr ((body.jsGet "data").jsGet "run_id")
          (jsOr ((body.jsGet "data").jsGet "dagRunId")
            (((body.jsGet "data").jsGet "dag_run").jsGet "dag_run_id")))
      "DAG `" ++ dagId ++ "` has been triggered successfully.\nRun ID: `" ++
        (if runId.jsTruthy then disp runId else "manual") ++ "`"
    else if ok then
      "Failed to trigger DAG `" ++ dagId ++ "`. Server responded with unexpected payload."
    else
      "Error: Failed to trigger DAG `" ++ dagId ++ "`. HTTP " ++ toString st

/-- The RERUN branch as a turn: the model reply and the `/run` oracle are
not consulted. -/
def rerunBranchC (input dagId : String) (rr : FetchOutcome) : TurnC :=
  { userMsg := some input, branch := .rerun, rerunCalls := [dagId],
    botMsgs := [rerunMsgC dagId rr], loadingTouched := true }

/-- Messages and `setDagList` value of the LIST DAGS branch (lines 188–211):
note that the message for a failed call and the message for an empty
extraction are the same string. -/
def listOutcomeC (result : MCPResult) : List String × Option (List JSON) :=
  if !result.ok then (["No DAGs found or server not responding."], none)
  else
    let dags := extractDagsC result.body
    if dags.length > 0 then
      let normalized := normalizeDagList dags
      (["Found " ++ toString normalized.length ++ " DAGs. Showing in table below."],
       some normalized)
    else (["No DAGs found or server not responding."], none)

/-- The LIST DAGS branch as a turn. -/
def listBranchC (input : String) (o : String → MCPResult) : TurnC :=
  { userMsg := some input, branch := .list, calls := ["list all dags"],
    botMsgs := (listOutcomeC (o "list all dags")).1,
    dagList := (listOutcomeC (o "list all dags")).2,
    loadingTouched := true }

/-- The DEFAULT branch (lines 213–224): forward the raw query to the MCP
server, then hand the query and payload to the Groq model; `groqReply` is
the string that call resolves to. -/
def defaultBranchC (input query : String) (groqReply : String) : TurnC :=
  { userMsg := some input, branch := .dflt, calls := [query], loadingTouched := true,
    botMsgs := [if groqReply ≠ "" then groqReply else "No response from model."] }

/-- Model of `sendMessage` of the first `Chatbot2.jsx` component: blank-input early
return, then the rerun rule (on the lower-cased query), the list rule, and
the default forward. -/
def sendMessageC (input : String) (o : String → MCPResult) (rr : FetchOutcome)
    (groqReply : String) : TurnC :=
  if jsTrim input = "" then {}
  else
    let query := jsTrim input
    match rerunCapture (lowerChars query.data) with
    | some dagId => rerunBranchC input dagId rr
    | none =>
      if listTestC query.data then listBranchC input o
      else defaultBranchC input query groqReply

/-! ### `sendMessage` of the second `Chatbot2.jsx` component (lines 664–753) -/

structure TurnB where
  userMsg : Option String := none
  calls : List String := []          -- queries POSTed to /run
  botMsgs : List String := []
  dagList : Option JSON := none
  dagDetails : Option JSON := none
  loadingTouched : Bool := false
deriving Repr

/-- Model of `sendToAI` (lines 590–661) after a successful key check: the extracted
model content (`none` when the call failed or carried no content) is cut to
its first line and trimmed.  The result is a raw command string — there is
no re-parse against the seven supported command forms. -/
def sendToAI (aiContent : Option String) : Option String :=
  aiContent.map (fun c => jsTrim (firstLine c))

/-- Messages and `setDagList` value of the degraded no-key path of the
second `Chatbot2.jsx` component (lines 676–697). -/
def bNoKeyOutcome (result : MCPResult) : List String × Option JSON :=
  if result.ok then
    ([disp (parseMCPResponseB result.body)],
     if (extractDagsAJ result.body).jsLenPos then some (extractDagsAJ result.body) else none)
  else (["❌ MCP Server error (" ++ toString result.status ++ ")"], none)

/-- Messages, `setDagList` and `setDagDetails` values after a successful
`/run` call on the AI-produced command (lines 726–746). -/
def bCommandOutcome (aiCommand : String) (result : MCPResult) :
    List String × Option JSON × Option JSON :=
  if !result.ok then
    (["❌ MCP Server error (" ++ toString result.status ++
      "). Make sure the MCP server is running on http://localhost:8800/run."], none, none)
  else
    let rt := parseMCPResponseB result.body
    let shownText := if rt.jsTruthy then disp rt else "Request completed but no response data."
    let dags := extractDagsAJ result.body
    if dags.jsLenPos then ([shownText], some dags, none)
    else if jsStartsWith aiCommand "get dag details" || jsStartsWith aiCommand "get latest run" then
      ([shownText], none,
       some (.obj (spreadInto [("dag_id", .str (lastTokenJS aiCommand))] result.body)))
    else ([shownText], none, none)

/-- Model of `sendMessage` of the second `Chatbot2.jsx` component.  `hasKey` is
whether `REACT_APP_GROQ_API_KEY` is configured, `aiContent` the model's
reply content, `o` the `/run` oracle.  The AI command — whatever nonempty
first line the model produced — is forwarded to `/run` verbatim. -/
def sendMessageB (input : String) (hasKey : Bool) (aiContent : Option String)
    (o : String → MCPResult) : TurnB :=
  if jsTrim input = "" then {}
  else
    let userQuery := jsTrim input
    if !hasKey then
      { userMsg := some input, calls := [userQuery],
        botMsgs := "⚠️ Groq API key not configured. Falling back to local heuristics (no AI)." ::
          (bNoKeyOutcome (o userQuery)).1,
        dagList := (bNoKeyOutcome (o userQuery)).2,
        dagDetails := some .null, loadingTouched := true }
    else
      match sendToAI aiContent with
      | none =>
        { userMsg := some input,
          botMsgs := ["🤖 Interpreting your request...",
            "❌ AI could not interpret the request. Try rephrasing."],
          dagDetails := some .null, loadingTouched := true }
      | some aiCommand =>
        if aiCommand = "" then
          { userMsg := some input,
            botMsgs := ["🤖 Interpreting your request...",
              "❌ AI could not interpret the request. Try rephrasing."],
            dagDetails := some .null, loadingTouched := true }
        else
          { userMsg := some input, calls := [aiCommand],
            botMsgs := "🤖 Interpreting your request..." ::
              ("🔁 Interpreted as: `" ++ aiCommand ++ "`") ::
              (bCommandOutcome aiCommand (o aiCommand)).1,
            dagList := (bCommandOutcome aiCommand (o aiCommand)).2.1,
            dagDetails := match (bCommandOutcome aiCommand (o aiCommand)).2.2 with
              | some d => some d
              | none => some .null,
            loadingTouched := true }

/-! ### Definitions taken from the specification's wording

These two definitions are written from the spec, not from the code: they
give the claims something to be compared against. -/

/-- Modelled from the spec (§4.2): the seven recognized textual command
forms of the LLM interpreter — `list all dags`, `search dags <term>`,
`get dag details <id>`, `get latest run <id>`, `pause dag <id>`,
`unpause dag <id>`, `trigger dag <id>` (argument nonempty). -/
def recognizedForm (s : String) : Bool :=
  s = "list all dags" ||
  argForm "search dags " s ||
  argForm "get dag details " s ||
  argForm "get latest run " s ||
  argForm "pause dag " s ||
  argForm "unpause dag " s ||
  argForm "trigger dag " s
where
  argForm (pre s : String) : Bool :=
    jsStartsWith s pre && Nat.blt pre.data.length s.data.length

/-- Modelled from the spec (§4.4): check, in order, `payload.output.dags`,
`payload.dags`, `payload.data.dags`, `payload.data` as a sequence,
`payload.results`, and the payload itself as a sequence, returning the
first NON-EMPTY match, otherwise the empty sequence. -/
def specExtractFirstNonEmpty (p : JSON) : List JSON :=
  let cands : List (Option (List JSON)) :=
    [isArrA ((p.jsGet "output").jsGet "dags"),
     isArrA (p.jsGet "dags"),
     isArrA ((p.jsGet "data").jsGet "dags"),
     isArrA (p.jsGet "data"),
     isArrA (p.jsGet "results"),
     isArrA p]
  match (cands.filterMap id).filter (fun l => !l.isEmpty) with
  | l :: _ => l
  | [] => []

/-! ### The ordered-strategy view of the extractors (for the cascade claims) -/

/-- The six shape checks of the Chatbot2 `extractDags`, as an ordered list
of strategies; the function returns the value at the first position whose
structural check succeeds (even when that value is the empty array). -/
def strategiesC : List (JSON → Option (List JSON)) :=
  [fun b => if (b.jsGet "output").jsTruthy then isArrA ((b.jsGet "output").jsGet "dags") else none,
   fun b => isArrA (b.jsGet "dags"),
   fun b => if (b.jsGet "data").jsTruthy then
       match isArrA ((b.jsGet "data").jsGet "dags") with
       | some xs => some xs
       | none => isArrA (b.jsGet "data")
     else none,
   fun b => isArrA (b.jsGet "results"),
   fun b => isArrA b]

/-- The four shape checks of the Analytics `extractDags` (the first one a
bare truthiness test). -/
def strategiesAJ : List (JSON → Option JSON) :=
  [fun b => if ((b.jsGet "output").jsGet "dags").jsTruthy
            then some ((b.jsGet "output").jsGet "dags") else none,
   fun b => if isArr (b.jsGet "dags") then some (b.jsGet "dags") else none,
   fun b => if isArr (b.jsGet "results") then some (b.jsGet "results") else none,
   fun b => if isArr b then some b else none]

/-! ### Which rules of each cascade match a query (for the priority claims) -/

/-- The rules of the Analytics cascade whose pattern fires on `q`, in
declaration order.  The search entry reproduces the branch condition
`searchMatch || /\bsearch\b/i.test(query)`. -/
def ruleHitsA (q : String) : List BranchA :=
  (if listTestA q.data then [BranchA.list] else []) ++
  (if (searchCaptureA q.data).isSome || searchWordTest q.data then [BranchA.search] else []) ++
  (if (detailsCapture q.data).isSome then [BranchA.details] else []) ++
  (if (pauseCapture q.data).isSome then [BranchA.pause] else []) ++
  (if (unpauseCapture q.data).isSome then [BranchA.unpause] else []) ++
  (if (triggerCapture q.data).isSome then [BranchA.trigger] else []) ++
  (if (latestRunCapture q.data).isSome then [BranchA.latestRun] else [])

/-- The rules of the first-Chatbot2 cascade whose pattern fires on `q`. -/
def ruleHitsC (q : String) : List BranchC :=
  (if (rerunCapture (lowerChars q.data)).isSome then [BranchC.rerun] else []) ++
  (if listTestC q.data then [BranchC.list] else [])

/-! ### Example oracles used by closed statements -/

/-- Backend unreachable on every query. -/
def oFail : String → MCPResult := fun _ => { ok := false, status := 0, body := .null }

/-- Every query succeeds with a payload holding an empty `dags` array. -/
def oEmptyList : String → MCPResult := fun _ =>
  { ok := true, status := 200, body := .obj [("dags", .arr [])] }

/-- The detail call succeeds, everything else (in particular the
latest-run call) fails. -/
def oDetailOnly : String → MCPResult := fun q =>
  if q = "get dag details nightly_etl" then
    { ok := true, status := 200, body := .obj [("schedule", .str "@daily")] }
  else { ok := false, status := 0, body := .null }

/-! ### Helper lemmas -/

theorem getProp_of_not_truthy (v : JSON) (hv : v.jsTruthy = false) (k : String) :
    v.getProp k = none := by
  cases v <;> simp_all [JSON.jsTruthy, JSON.getProp]

theorem isArrA_of_not_truthy (v : JSON) (hv : v.jsTruthy = false) : isArrA v = none := by
  cases v <;> simp_all [JSON.jsTruthy, isArrA]

theorem isArr_of_not_truthy (v : JSON) (hv : v.jsTruthy = false) : isArr v = false := by
  simp [isArr, isArrA_of_not_truthy v hv]

theorem jsGet_of_not_truthy (v : JSON) (hv : v.jsTruthy = false) (k : String) :
    v.jsGet k = .null := by
  simp [JSON.jsGet, getProp_of_not_truthy v hv]

theorem jsGet_null (k : String) : JSON.jsGet .null k = .null := rfl

/-- JS `a || b` is truthy iff one of the operands is. -/
theorem jsOr_truthy (a b : JSON) : (jsOr a b).jsTruthy = (a.jsTruthy || b.jsTruthy) := by
  unfold jsOr
  by_cases h : a.jsTruthy <;> simp [h]

/-- Any `JSON.stringify` of an object is nonempty (it starts with a brace). -/
theorem stringifyJson_obj_ne_empty (fs : List (String × JSON)) :
    stringifyJson (.obj fs) ≠ "" := by
  intro h
  have h1 : (stringifyJson (.obj fs)).length = 0 := by rw [h]; rfl
  rw [stringifyJson, String.length_append, String.length_append] at h1
  have h2 : ("\x7b" : String).length = 1 := rfl
  omega

/-- The control fields of the dispatch branches are fixed by construction. -/
theorem listBranchA_branch (i : String) (o : String → MCPResult) :
    (listBranchA i o).branch = .list := rfl

theorem searchBranchA_branch (i q : String) (o : String → MCPResult) :
    (searchBranchA i q o).branch = .search := rfl

theorem detailsBranchA_branch (i d : String) (o : String → MCPResult) :
    (detailsBranchA i d o).branch = .details := rfl

theorem pauseBranchA_branch (i d : String) (o : String → MCPResult) :
    (pauseBranchA i d o).branch = .pause := rfl

theorem unpauseBranchA_branch (i d : String) (o : String → MCPResult) :
    (unpauseBranchA i d o).branch = .unpause := rfl

theorem triggerBranchA_branch (i d : String) (o : String → MCPResult) :
    (triggerBranchA i d o).branch = .trigger := rfl

theorem latestRunBranchA_branch (i d : String) (o : String → MCPResult) :
    (latestRunBranchA i d o).branch = .latestRun := rfl

theorem defaultBranchA_branch (i q : String) (o : String → MCPResult) :
    (defaultBranchA i q o).branch = .dflt := rfl

theorem rerunBranchC_fields (i d : String) (rr : FetchOutcome) :
    (rerunBranchC i d rr).branch = .rerun ∧ (rerunBranchC i d rr).rerunCalls = [d] ∧
    (rerunBranchC i d rr).calls = [] := ⟨rfl, rfl, rfl⟩

theorem listBranchC_branch (i : String) (o : String → MCPResult) :
    (listBranchC i o).branch = .list := rfl

theorem defaultBranchC_branch (i q g : String) : (defaultBranchC i q g).branch = .dflt := rfl

/-- The Chatbot2 extractor is the ordered-strategy cascade: the value at
the first position whose structural check succeeds, else the empty list. -/
theorem extractDagsC_eq_firstSome (v : JSON) :
    extractDagsC v = ((strategiesC.findSome? (fun f => f v)).getD []) := by
  by_cases hv : v.jsTruthy
  · simp only [extractDagsC, strategiesC, hv, Bool.not_true, if_false, List.findSome?]
    cases h1 : (if (v.jsGet "output").jsTruthy then isArrA ((v.jsGet "output").jsGet "dags") else none) with
    | some xs => simp [h1]
    | none =>
      simp only [h1]
      cases h2 : isArrA (v.jsGet "dags") with
      | some xs => simp [h2]
      | none =>
        simp only [h2]
        cases h3 : (if (v.jsGet "data").jsTruthy then
            match isArrA ((v.jsGet "data").jsGet "dags") with
            | some xs => some xs
            | none => isArrA (v.jsGet "data")
          else none) with
        | some xs => simp [h3]
        | none =>
          simp only [h3]
          cases h4 : isArrA (v.jsGet "results") with
          | some xs => simp [h4]
          | none =>
            simp only [h4]
            cases h5 : isArrA v <;> simp [h5]
  · have hv' : v.jsTruthy = false := by simpa using hv
    simp [extractDagsC, strategiesC, List.findSome?, hv',
      jsGet_of_not_truthy v hv', jsGet_null, isArrA_of_not_truthy v hv',
      (rfl : JSON.null.jsTruthy = false), (rfl : isArrA .null = none)]
    rfl

/-- The Analytics extractor is its (shorter) ordered-strategy cascade. -/
theorem extractDagsAJ_eq_firstSome (v : JSON) :
    extractDagsAJ v = ((strategiesAJ.findSome? (fun f => f v)).getD (.arr [])) := by
  by_cases hv : v.jsTruthy
  · by_cases h1 : ((v.jsGet "output").jsGet "dags").jsTruthy
    · simp [extractDagsAJ, strategiesAJ, hv, h1, List.findSome?]
    · by_cases h2 : isArr (v.jsGet "dags")
      · simp [extractDagsAJ, strategiesAJ, hv, h1, h2, List.findSome?]
      · by_cases h3 : isArr (v.jsGet "results")
        · simp [extractDagsAJ, strategiesAJ, hv, h1, h2, h3, List.findSome?]
        · by_cases h4 : isArr v
          · simp [extractDagsAJ, strategiesAJ, hv, h1, h2, h3, h4, List.findSome?]
          · simp [extractDagsAJ, strategiesAJ, hv, h1, h2, h3, h4, List.findSome?]
  · have hv' : v.jsTruthy = false := by simpa using hv
    simp [extractDagsAJ, strategiesAJ, List.findSome?, hv',
      jsGet_of_not_truthy v hv', jsGet_null, isArr_of_not_truthy v hv',
      (rfl : JSON.null.jsTruthy = false), (rfl : isArr .null = false)]
    rfl

/-- C2 (corrected).  Both extractors check their payload shapes in the
declared order, but each returns the value at the first position whose
STRUCTURAL check succeeds — even when that value is empty; they do not skip
an empty match to look further.  (The Analytics variant, also cited by the
claim, checks only `output?.dags` (truthiness), `dags`, `results` and the
payload itself, with no `data` positions at all.) -/
theorem C2_extract_first_structural_match (v : JSON) :
    extractDagsC v = ((strategiesC.findSome? (fun f => f v)).getD []) ∧
    extractDagsAJ v = ((strategiesAJ.findSome? (fun f => f v)).getD (.arr [])) :=
  ⟨extractDagsC_eq_firstSome v, extractDagsAJ_eq_firstSome v⟩

/-- C2 counterexample.  On `{output:{dags:[]}, dags:["a"]}` the first
position matches with an empty array, so both extractors return the empty
sequence, while the claimed "first non-empty match" rule would return
`["a"]` from the second position. -/
theorem C2_counterexample :
    extractDagsC (.obj [("output", .obj [("dags", .arr [])]), ("dags", .arr [.str "a"])]) = [] ∧
    extractDagsAJ (.obj [("output", .obj [("dags", .arr [])]), ("dags", .arr [.str "a"])]) = .arr [] ∧
    specExtractFirstNonEmpty
      (.obj [("output", .obj [("dags", .arr [])]), ("dags", .arr [.str "a"])]) = [.str "a"] ∧
    ([] : List JSON) ≠ [JSON.str "a"] :=
  ⟨rfl, rfl, rfl, by simp⟩

/-- C9 (corrected).  The Chatbot2 extractor always returns a list and is
idempotent: re-extracting from its own (array) output returns it
unchanged, for every JSON payload, with no exception path. -/
theorem C9_chatbot2_extract_idempotent_total (v : JSON) :
    extractDagsC (.arr (extractDagsC v)) = extractDagsC v := rfl

/-- C9 counterexample.  The Analytics variant returns `output?.dags`
whenever it is truthy, even when it is not a sequence: on
`{output:{dags:{x:1}}}` it returns the object `{x:1}`, and applying it
again yields `[]`, so it is neither sequence-valued nor idempotent. -/
theorem C9_counterexample :
    extractDagsAJ (.obj [("output", .obj [("dags", .obj [("x", .num 1)])])]) =
      .obj [("x", .num 1)] ∧
    extractDagsAJ (extractDagsAJ (.obj [("output", .obj [("dags", .obj [("x", .num 1)])])])) =
      .arr [] ∧
    JSON.arr [] ≠ JSON.obj [("x", .num 1)] :=
  ⟨rfl, rfl, fun h => JSON.noConfusion h⟩

/-- C8 (corrected).  Only the first Chatbot2 component's `callMCPServer`
degrades a JSON-parse failure to an empty-object body (preserving `ok` and
`status`); the Analytics caller (and the second Chatbot2 component's,
which is identical) lets `res.json()` reject into the outer catch and
reports `{ok:false, status:0, body:null}` — a connectivity-style failure —
even for a 2xx response. -/
theorem C8_parse_failure_paths (ok : Bool) (st : Nat) :
    callMCPServerC (.response ok st none) = { ok := ok, status := st, body := .obj [] } ∧
    callMCPServerA (.response ok st none) = { ok := false, status := 0, body := .null } :=
  ⟨rfl, rfl⟩

/-- C8 counterexample.  A 200 response whose body fails to parse: the
Analytics caller yields the connectivity-failure record, not a preserved
`ok`/`status` with `{}` body. -/
theorem C8_counterexample :
    callMCPServerA (.response true 200 none) = { ok := false, status := 0, body := .null } ∧
    (callMCPServerA (.response true 200 none)).ok ≠ true ∧
    (callMCPServerA (.response true 200 none)).body ≠ .obj [] :=
  ⟨rfl, fun h => Bool.noConfusion h, fun h => JSON.noConfusion h⟩

/-- A normalized object entry is always truthy (its default is the
JSON string form, which is nonempty). -/
theorem normEntry_obj_truthy (fs : List (String × JSON)) :
    (normEntry (.obj fs)).jsTruthy = true := by
  have hne := stringifyJson_obj_ne_empty fs
  have h1 : normEntry (.obj fs) =
      jsOr ((JSON.obj fs).jsGet "dag_id") (jsOr ((JSON.obj fs).jsGet "dagId")
        (jsOr ((JSON.obj fs).jsGet "id") (.str (stringifyJson (.obj fs))))) := rfl
  rw [h1, jsOr_truthy, jsOr_truthy, jsOr_truthy]
  simp [JSON.jsTruthy, hne]

/-- C7 (corrected).  Object entries are never dropped: each yields exactly
one normalized entry, whose identifier is the first truthy of `dag_id`,
`dagId`, `id`, with the JSON string form as default.  (Falsy raw entries —
`null`, `false`, `0`, `""` — normalize to `""` and are removed by the
final `.filter(Boolean)`, so for those the one-summary-per-entry claim
fails; see the counterexample.) -/
theorem C7_normalization_keeps_objects (l : List JSON) (fs : List (String × JSON))
    (hobj : ∀ d ∈ l, ∃ gs, d = JSON.obj gs) :
    (normalizeDagList l).length = l.length ∧
    (normEntry (.obj fs)).jsTruthy = true ∧
    normEntry (.obj fs) =
      jsOr ((JSON.obj fs).jsGet "dag_id") (jsOr ((JSON.obj fs).jsGet "dagId")
        (jsOr ((JSON.obj fs).jsGet "id") (.str (stringifyJson (.obj fs))))) := by
  refine ⟨?_, normEntry_obj_truthy fs, rfl⟩
  induction l with
  | nil => rfl
  | cons d rest ih =>
    obtain ⟨gs, rfl⟩ := hobj d (by simp)
    have hrest := ih (fun x hx => hobj x (by simp [hx]))
    simp only [normalizeDagList, List.map_cons, List.filter_cons, normEntry_obj_truthy gs,
      if_true, List.length_cons] at hrest ⊢
    omega

/-- C7 counterexample.  A `null` raw entry is silently dropped by
`.filter(Boolean)`: two raw entries normalize to one summary. -/
theorem C7_counterexample :
    normalizeDagList [JSON.null, .str "a"] = [.str "a"] ∧
    (normalizeDagList [JSON.null, .str "a"]).length ≠ ([JSON.null, JSON.str "a"]).length :=
  ⟨rfl, by decide⟩

/-- C7 witness. -/
theorem C7_witness :
    (normalizeDagList [JSON.obj [("dag_id", .str "a")], JSON.obj []]).length =
      ([JSON.obj [("dag_id", .str "a")], JSON.obj []] : List JSON).length ∧
    (normEntry (.obj [("dag_id", .str "x")])).jsTruthy = true := by
  have h := C7_normalization_keeps_objects [JSON.obj [("dag_id", .str "a")], JSON.obj []]
    [("dag_id", .str "x")]
    (by intro d hd
        simp only [List.mem_cons, List.not_mem_nil, or_false] at hd
        rcases hd with rfl | rfl
        · exact ⟨_, rfl⟩
        · exact ⟨_, rfl⟩)
  exact ⟨h.1, h.2.1⟩

/-- C10: processing a turn whose input trims to the empty string is a
no-op in all three chat components: no user or bot message, no backend or
model call, no `setDagList` / `setDagDetails` / `setLoading` update (the
`{}` record has every field at its untouched default). -/
theorem C10_blank_input_noop (input : String) (o : String → MCPResult) (rr : FetchOutcome)
    (g : String) (hasKey : Bool) (ai : Option String) (h : jsTrim input = "") :
    sendMessageA input o = {} ∧ sendMessageC input o rr g = {} ∧
    sendMessageB input hasKey ai o = {} := by
  refine ⟨?_, ?_, ?_⟩ <;> simp [sendMessageA, sendMessageC, sendMessageB, h]

/-- C10 witness. -/
theorem C10_witness :
    jsTrim " \n " = "" ∧ sendMessageA " \n " oFail = {} ∧
    sendMessageC " \n " oFail (.networkError "x") "" = {} ∧
    sendMessageB " \n " true none oFail = {} :=
  ⟨rfl,
   (C10_blank_input_noop " \n " oFail (.networkError "x") "" true none rfl).1,
   (C10_blank_input_noop " \n " oFail (.networkError "x") "" true none rfl).2.1,
   (C10_blank_input_noop " \n " oFail (.networkError "x") "" true none rfl).2.2⟩

/-- C1 (corrected).  The AI-driven router reports an interpretation
failure and skips the backend exactly when the model produced no content,
or a first line that trims to the empty string.  Any other trimmed first
line — whether or not it is one of the seven recognized forms — is
forwarded to the backend verbatim as the `/run` query. -/
theorem C1_llm_reply_forwarded (input : String) (o : String → MCPResult) (content : String)
    (hne : jsTrim input ≠ "") :
    ((sendMessageB input true none o).calls = [] ∧
     (sendMessageB input true none o).botMsgs =
       ["🤖 Interpreting your request...",
        "❌ AI could not interpret the request. Try rephrasing."]) ∧
    (jsTrim (firstLine content) = "" →
      (sendMessageB input true (some content) o).calls = [] ∧
      (sendMessageB input true (some content) o).botMsgs =
        ["🤖 Interpreting your request...",
         "❌ AI could not interpret the request. Try rephrasing."]) ∧
    (jsTrim (firstLine content) ≠ "" →
      (sendMessageB input true (some content) o).calls = [jsTrim (firstLine content)]) := by
  refine ⟨?_, ?_, ?_⟩
  · constructor <;> simp [sendMessageB, if_neg hne, sendToAI]
  · intro h
    constructor <;> simp [sendMessageB, if_neg hne, sendToAI, h]
  · intro h
    simp [sendMessageB, if_neg hne, sendToAI, h]

/-- C1 counterexample.  "purge all data" matches none of the seven
recognized textual forms, yet the router forwards it to the backend as the
query instead of returning `None` and reporting an interpretation
failure. -/
theorem C1_counterexample :
    recognizedForm "purge all data" = false ∧
    (sendMessageB "do something odd" true (some "purge all data\nextra prose") oFail).calls =
      ["purge all data"] :=
  ⟨by decide, rfl⟩

/-- C1 witness. -/
theorem C1_witness :
    ((sendMessageB "hello there" true none oFail).calls = [] ∧
     (sendMessageB "hello there" true none oFail).botMsgs =
       ["🤖 Interpreting your request...",
        "❌ AI could not interpret the request. Try rephrasing."]) ∧
    (jsTrim (firstLine "trigger dag x\nblah") = "" →
      (sendMessageB "hello there" true (some "trigger dag x\nblah") oFail).calls = [] ∧
      (sendMessageB "hello there" true (some "trigger dag x\nblah") oFail).botMsgs =
        ["🤖 Interpreting your request...",
         "❌ AI could not interpret the request. Try rephrasing."]) ∧
    (jsTrim (firstLine "trigger dag x\nblah") ≠ "" →
      (sendMessageB "hello there" true (some "trigger dag x\nblah") oFail).calls =
        [jsTrim (firstLine "trigger dag x\nblah")]) :=
  C1_llm_reply_forwarded "hello there" oFail "trigger dag x\nblah" (by decide)

/-- C3 (corrected).  Within each matcher, an utterance matching several
rule patterns resolves to the earliest-listed rule of that matcher's own
cascade (first match short-circuits).  But the two cited cascades differ
on `rerun`: the first Chatbot2 component checks `rerun` first and
dispatches it to the dedicated rerun endpoint, while the Analytics cascade
has no rerun rule — there a `rerun <id>` utterance falls through to the
generic trigger rule. -/
theorem C3_first_match_priority (input : String) (o : String → MCPResult)
    (hne : jsTrim input ≠ "") :
    (sendMessageA input o).branch = (ruleHitsA (jsTrim input)).headD BranchA.dflt ∧
    (∀ rr g, (sendMessageC input o rr g).branch = (ruleHitsC (jsTrim input)).headD BranchC.dflt) ∧
    (∀ dagId rr g, rerunCapture (lowerChars (jsTrim input).data) = some dagId →
      (sendMessageC input o rr g).rerunCalls = [dagId] ∧ (sendMessageC input o rr g).calls = []) := by
  refine ⟨?_, ?_, ?_⟩
  · simp only [sendMessageA, if_neg hne]
    by_cases h1 : listTestA (jsTrim input).data
    · simp [h1, ruleHitsA, listBranchA_branch]
    · by_cases h2 : ((searchCaptureA (jsTrim input).data).isSome ||
          searchWordTest (jsTrim input).data)
      · simp [h1, h2, ruleHitsA, searchBranchA_branch]
      · cases h3 : detailsCapture (jsTrim input).data with
        | some d => simp [h1, h2, h3, ruleHitsA, detailsBranchA_branch]
        | none =>
          cases h4 : pauseCapture (jsTrim input).data with
          | some d => simp [h1, h2, h3, h4, ruleHitsA, pauseBranchA_branch]
          | none =>
            cases h5 : unpauseCapture (jsTrim input).data with
            | some d => simp [h1, h2, h3, h4, h5, ruleHitsA, unpauseBranchA_branch]
            | none =>
              cases h6 : triggerCapture (jsTrim input).data with
              | some d => simp [h1, h2, h3, h4, h5, h6, ruleHitsA, triggerBranchA_branch]
              | none =>
                cases h7 : latestRunCapture (jsTrim input).data with
                | some d =>
                  simp [h1, h2, h3, h4, h5, h6, h7, ruleHitsA, latestRunBranchA_branch]
                | none =>
                  simp [h1, h2, h3, h4, h5, h6, h7, ruleHitsA, defaultBranchA_branch]
  · intro rr g
    simp only [sendMessageC, if_neg hne]
    cases hr : rerunCapture (lowerChars (jsTrim input).data) with
    | some d => simp [hr, ruleHitsC, (rerunBranchC_fields input d rr).1]
    | none =>
      by_cases hl : listTestC (jsTrim input).data <;>
        simp [hr, hl, ruleHitsC, listBranchC_branch, defaultBranchC_branch]
  · intro dagId rr g h
    simp only [sendMessageC, if_neg hne, h]
    exact ⟨(rerunBranchC_fields input dagId rr).2.1, (rerunBranchC_fields input dagId rr).2.2⟩

/-- C3 counterexample.  On "rerun my_dag" the Analytics cascade (cited by
the claim) has no rerun rule: the only matching rule is the generic
trigger rule, and the turn issues the generic `/run` query
`trigger dag my_dag` — not a call to the rerun endpoint.  The first
Chatbot2 component, also cited, classifies the same utterance by its rerun
rule and posts to the rerun endpoint instead: the two cited matchers
disagree, so the claimed uniform rule-1 classification is false. -/
theorem C3_counterexample :
    ruleHitsA "rerun my_dag" = [BranchA.trigger] ∧
    (sendMessageA "rerun my_dag" oFail).branch = BranchA.trigger ∧
    (sendMessageA "rerun my_dag" oFail).calls = ["trigger dag my_dag"] ∧
    (sendMessageC "rerun my_dag" oFail (.networkError "down") "").branch = BranchC.rerun ∧
    (sendMessageC "rerun my_dag" oFail (.networkError "down") "").rerunCalls = ["my_dag"] ∧
    (sendMessageC "rerun my_dag" oFail (.networkError "down") "").calls = [] :=
  ⟨rfl, rfl, rfl, rfl, rfl, rfl⟩

/-- C3 witness: "unpause billing" matches both the pause pattern (as a
substring) and the unpause pattern; the earlier-listed pause rule wins. -/
theorem C3_witness :
    ruleHitsA "unpause billing" = [BranchA.pause, BranchA.unpause] ∧
    (sendMessageA "unpause billing" oFail).branch =
      (ruleHitsA (jsTrim "unpause billing")).headD BranchA.dflt :=
  ⟨rfl, (C3_first_match_priority "unpause billing" oFail (by decide)).1⟩

/-- Appending a fresh key does not change lookups of other keys. -/
theorem getPropGo_append_single (fs : List (String × JSON)) (k k' : String) (v : JSON)
    (h : k ≠ k') :
    JSON.getProp.go (fs ++ [(k, v)]) k' = JSON.getProp.go fs k' := by
  induction fs with
  | nil => simp [JSON.getProp.go, h]
  | cons p rest ih =>
    cases p with
    | mk a b => by_cases hp : a = k' <;> simp [JSON.getProp.go, hp, ih]

/-- Replacing the value at one key does not change lookups of other keys. -/
theorem getPropGo_map_replace (fs : List (String × JSON)) (k k' : String) (v : JSON)
    (h : k ≠ k') :
    JSON.getProp.go (fs.map (fun p => if p.1 = k then (k, v) else p)) k' =
      JSON.getProp.go fs k' := by
  induction fs with
  | nil => rfl
  | cons p rest ih =>
    obtain ⟨a, b⟩ := p
    simp only [List.map_cons]
    by_cases ha : a = k
    · subst ha
      rw [show (if ((a, b) : String × JSON).1 = a then (a, v) else (a, b)) = (a, v) from
        if_pos rfl]
      simp only [JSON.getProp.go]
      rw [if_neg h, if_neg h]
      exact ih
    · rw [show (if ((a, b) : String × JSON).1 = k then (k, v) else (a, b)) = (a, b) from
        if_neg ha]
      simp only [JSON.getProp.go]
      by_cases hp : a = k'
      · rw [if_pos hp, if_pos hp]
      · rw [if_neg hp, if_neg hp]
        exact ih

/-- An `objInsert` at key `k` does not change lookups of `k' ≠ k`. -/
theorem getPropGo_objInsert_ne (fs : List (String × JSON)) (k k' : String) (v : JSON)
    (h : k ≠ k') :
    JSON.getProp.go (objInsert fs k v) k' = JSON.getProp.go fs k' := by
  unfold objInsert
  split
  · exact getPropGo_map_replace fs k k' v h
  · exact getPropGo_append_single fs k k' v h

/-- Folding `objInsert` over keys different from `k` keeps `k` absent. -/
theorem getPropGo_foldl_objInsert (gs : List (String × JSON)) (base : List (String × JSON))
    (k : String) (hbase : JSON.getProp.go base k = none) (hgs : ∀ p ∈ gs, p.1 ≠ k) :
    JSON.getProp.go (gs.foldl (fun acc kv => objInsert acc kv.1 kv.2) base) k = none := by
  induction gs generalizing base with
  | nil => simpa using hbase
  | cons p rest ih =>
    simp only [List.foldl_cons]
    refine ih (objInsert base p.1 p.2) ?_ (fun q hq => hgs q (by simp [hq]))
    rw [getPropGo_objInsert_ne base p.1 k p.2 (hgs p (by simp))]
    exact hbase

/-- C4 (confirmed).  For every turn classified as Details{id}, the detail
call and the latest-run call are both issued (the code awaits them jointly
via `Promise.all`, so both outcomes are observed whatever the other's).
If the detail call succeeds and the run call fails, the turn still
produces a detail record — `{dag_id} ⊕ detail body` with no `latest_run`
assignment, so `latest_run` is absent whenever the detail body itself does
not carry that key — and reports success; if the detail call fails, the
turn reports "not found" and the detail record stays `null`. -/
theorem C4_details_asymmetric_join (input dagId : String) (o : String → MCPResult)
    (hne : jsTrim input ≠ "")
    (hlist : listTestA (jsTrim input).data = false)
    (hsearch : ((searchCaptureA (jsTrim input).data).isSome ||
      searchWordTest (jsTrim input).data) = false)
    (hdet : detailsCapture (jsTrim input).data = some dagId) :
    (sendMessageA input o).calls =
      ["get dag details " ++ dagId, "get latest run " ++ dagId] ∧
    ((o ("get dag details " ++ dagId)).ok = true →
      (o ("get latest run " ++ dagId)).ok = false →
      (sendMessageA input o).dagDetails =
        some (.obj (spreadInto [("dag_id", .str dagId)]
          (o ("get dag details " ++ dagId)).body)) ∧
      (sendMessageA input o).botMsgs = ["📋 Details for `" ++ dagId ++ "` shown below."] ∧
      (∀ gs, (o ("get dag details " ++ dagId)).body = .obj gs →
        (∀ p ∈ gs, p.1 ≠ "latest_run") →
        (JSON.obj (spreadInto [("dag_id", .str dagId)]
          (o ("get dag details " ++ dagId)).body)).getProp "latest_run" = none)) ∧
    ((o ("get dag details " ++ dagId)).ok = false →
      (sendMessageA input o).botMsgs = ["❌ DAG `" ++ dagId ++ "` not found."] ∧
      (sendMessageA input o).dagDetails = some .null) := by
  have hmain : sendMessageA input o = detailsBranchA input dagId o := by
    simp only [sendMessageA, if_neg hne, hlist, hsearch, hdet]
    simp
  rw [hmain]
  refine ⟨rfl, ?_, ?_⟩
  · intro hok hrf
    refine ⟨?_, ?_, ?_⟩
    · simp [detailsBranchA, detailsOutcomeA, hok, hrf]
    · simp [detailsBranchA, detailsOutcomeA, hok, hrf]
    · intro gs hgs hnp
      rw [hgs]
      show JSON.getProp.go (spreadInto [("dag_id", .str dagId)] (.obj gs)) "latest_run" = none
      simp only [spreadInto]
      exact getPropGo_foldl_objInsert gs [("dag_id", .str dagId)] "latest_run"
        (by simp [JSON.getProp.go]) hnp
  · intro hnok
    constructor <;> simp [detailsBranchA, detailsOutcomeA, hnok]

/-- C4 witness: "get details for nightly_etl" with the run call failing
still yields the detail record with `latest_run` absent and a success
message. -/
theorem C4_witness :
    (sendMessageA "get details for nightly_etl" oDetailOnly).calls =
      ["get dag details nightly_etl", "get latest run nightly_etl"] ∧
    (sendMessageA "get details for nightly_etl" oDetailOnly).dagDetails =
      some (.obj [("dag_id", .str "nightly_etl"), ("schedule", .str "@daily")]) ∧
    (sendMessageA "get details for nightly_etl" oDetailOnly).botMsgs =
      ["📋 Details for `nightly_etl` shown below."] ∧
    (JSON.obj [("dag_id", .str "nightly_etl"), ("schedule", .str "@daily")]).getProp
      "latest_run" = none := by
  have h := C4_details_asymmetric_join "get details for nightly_etl" "nightly_etl" oDetailOnly
    (by decide) rfl rfl rfl
  have h2 := h.2.1 rfl rfl
  exact ⟨h.1, h2.1, h2.2.1, h2.2.2 [("schedule", .str "@daily")] rfl
    (by intro p hp; simp at hp; simp [hp])⟩

/-- C5 (corrected).  In the Analytics chatbot an empty-but-successful List
turn says "No DAGs found." while a failed call says "❌ Could not connect
to Airflow server." — distinct strings, and the empty case is not an error
path.  In the first Chatbot2 component (also cited by the claim) the two
situations produce the SAME text, "No DAGs found or server not
responding.", so there the claimed distinctness fails. -/
theorem C5_empty_vs_failure_messages (i i2 : String) (o o2 : String → MCPResult)
    (hok : (o "list all dags").ok = true)
    (hbody : (o "list all dags").body.jsTruthy = true)
    (hempty : (extractDagsAJ (o "list all dags").body).jsLenPos = false)
    (hfail : (o2 "list all dags").ok = false) :
    (listBranchA i o).botMsgs = ["No DAGs found."] ∧
    (listBranchA i2 o2).botMsgs = ["❌ Could not connect to Airflow server."] ∧
    "No DAGs found." ≠ "❌ Could not connect to Airflow server." ∧
    ((extractDagsC (o "list all dags").body).length = 0 →
      (listBranchC i o).botMsgs = ["No DAGs found or server not responding."] ∧
      (listBranchC i2 o2).botMsgs = ["No DAGs found or server not responding."]) := by
  refine ⟨?_, ?_, by decide, ?_⟩
  · simp [listBranchA, listOutcomeA, hok, hbody, hempty]
  · simp [listBranchA, listOutcomeA, hfail]
  · intro hzero
    constructor
    · simp [listBranchC, listOutcomeC, hok, hzero]
    · simp [listBranchC, listOutcomeC, hfail]

/-- C5 counterexample.  End to end in the first Chatbot2 component: a
successful call that normalizes to zero entities produces exactly the same
user-facing text as a failed call. -/
theorem C5_counterexample :
    (sendMessageC "list all dags" oEmptyList (.networkError "x") "").botMsgs =
      ["No DAGs found or server not responding."] ∧
    (sendMessageC "list all dags" oFail (.networkError "x") "").botMsgs =
      ["No DAGs found or server not responding."] ∧
    (sendMessageC "list all dags" oEmptyList (.networkError "x") "").botMsgs =
      (sendMessageC "list all dags" oFail (.networkError "x") "").botMsgs :=
  ⟨rfl, rfl, rfl⟩

/-- C5 witness. -/
theorem C5_witness :
    (listBranchA "list all dags" oEmptyList).botMsgs = ["No DAGs found."] ∧
    (listBranchA "list all dags" oFail).botMsgs =
      ["❌ Could not connect to Airflow server."] ∧
    (listBranchC "list all dags" oEmptyList).botMsgs =
      ["No DAGs found or server not responding."] ∧
    (listBranchC "list all dags" oFail).botMsgs =
      ["No DAGs found or server not responding."] := by
  have h := C5_empty_vs_failure_messages "list all dags" "list all dags" oEmptyList oFail
    rfl rfl rfl rfl
  exact ⟨h.1, h.2.1, (h.2.2.2 rfl).1, (h.2.2.2 rfl).2⟩

/-- C6 (corrected).  An utterance that enters the search branch (it
contains the word "search") but yields neither a capture nor a nonempty
remainder does NOT fall through to the LLM/freeform path: the branch is
entered and the turn ends silently — no backend call, no classification
hand-back, and no reply at all. -/
theorem C6_empty_search_ends_turn (input : String) (o : String → MCPResult)
    (hne : jsTrim input ≠ "")
    (hlist : listTestA (jsTrim input).data = false)
    (hword : ((searchCaptureA (jsTrim input).data).isSome ||
      searchWordTest (jsTrim input).data) = true)
    (hterm : searchTermA (jsTrim input) = none) :
    sendMessageA input o =
      { userMsg := some input, branch := .search, dagDetails := some .null,
        loadingTouched := true } := by
  simp only [sendMessageA, if_neg hne, hlist, hword]
  simp [searchBranchA, searchOutcomeA, hterm]

/-- C6 counterexample.  The bare utterance "search": the branch is
entered via the word test, the term is empty, and the turn ends with no
backend call, no bot message — and it is the search branch, not the
default/freeform fallback the claim requires. -/
theorem C6_counterexample :
    sendMessageA "search" oFail =
      { userMsg := some "search", branch := .search, dagDetails := some .null,
        loadingTouched := true } ∧
    (sendMessageA "search" oFail).calls = [] ∧
    (sendMessageA "search" oFail).botMsgs = [] ∧
    (sendMessageA "search" oFail).branch ≠ BranchA.dflt :=
  ⟨rfl, rfl, rfl, by decide⟩

/-- C6 witness. -/
theorem C6_witness :
    sendMessageA "please search " oFail =
      { userMsg := some "please search ", branch := .search, dagDetails := some .null,
        loadingTouched := true } :=
  C6_empty_search_ends_turn "please search " oFail (by decide) rfl rfl rfl
